import Mathlib

/-!
Shallow embedding of the collaborative-diagram backend (`src/main.py`):
the room data model, the REST room-create handler, the broadcast fanout,
and the per-connection websocket protocol loop with its cleanup phase.

Python sets are modelled as duplicate-free lists (`setAdd` inserts only
when absent, `setRemove` filters), Python dicts as association lists,
`time.time()` as an `Int` supplied with each `lock` message, and the
per-connection socket handle as a `Nat` identifier.  A Python `KeyError`
(the only uncaught in-loop exception the handlers can raise, from
`data["xml"]`) is modelled with `Except`.
-/

/-- An edit lock, `{"by": username, "since": timestamp}` in the source.
The holder is the session's `username` variable at grant time, which is
Python `None` before a `join` message, hence `Option String`. -/
structure LockInfo where
  lockBy : Option String
  since : Int
deriving Repr, DecidableEq

/-- One room of the in-memory store `FILES[fid]`:
`{"xml": ..., "lock": ..., "users": set(), "focus": {}, "sockets": set()}`. -/
structure Room where
  xml : String
  lock : Option LockInfo
  users : List String
  focus : List (String × Option String)
  sockets : List Nat
deriving Repr, DecidableEq

/-- Python `set.add`: insert an element unless already present. -/
def setAdd {α : Type} [DecidableEq α] (l : List α) (x : α) : List α :=
  if x ∈ l then l else l ++ [x]

/-- Python `set.discard` / `set.remove` on a duplicate-free list. -/
def setRemove {α : Type} [DecidableEq α] (l : List α) (x : α) : List α :=
  l.filter (fun y => y ≠ x)

/-- Python `k in dict` for the focus map. -/
def focusHasKey (f : List (String × Option String)) (k : String) : Bool :=
  (f.map Prod.fst).contains k

/-- Python `dict[k] = v`: replace in place if the key exists, else append. -/
def focusSet (f : List (String × Option String)) (k : String) (v : Option String) :
    List (String × Option String) :=
  if focusHasKey f k then f.map (fun p => if p.1 = k then (k, v) else p)
  else f ++ [(k, v)]

/-- Python `del dict[k]`. -/
def focusDel (f : List (String × Option String)) (k : String) :
    List (String × Option String) :=
  f.filter (fun p => p.1 ≠ k)

/-- `LOCK_TIMEOUT = 60 * 10` seconds (main.py line 26). -/
def LOCK_TIMEOUT : Int := 60 * 10

/-- `BLANK_BPMN_XML` (main.py lines 29-42), the default template for new files. -/
def BLANK_BPMN_XML : String :=
  "<?xml version=\"1.0\" encoding=\"UTF-8\"?>\n<bpmn:definitions xmlns:xsi=\"http://www.w3.org/2001/XMLSchema-instance\"\n  xmlns:bpmn=\"http://www.omg.org/spec/BPMN/20100524/MODEL\"\n  xmlns:bpmndi=\"http://www.omg.org/spec/BPMN/20100524/DI\"\n  xmlns:dc=\"http://www.omg.org/spec/DD/20100524/DC\"\n  targetNamespace=\"http://bpmn.io/schema/bpmn\">\n  <bpmn:process id=\"Process_1\" isExecutable=\"false\">\n    <bpmn:startEvent id=\"StartEvent_1\"/>\n  </bpmn:process>\n  <bpmndi:BPMNDiagram id=\"BPMNDiagram_1\">\n    <bpmndi:BPMNPlane id=\"BPMNPlane_1\" bpmnElement=\"Process_1\"/>\n  </bpmndi:BPMNDiagram>\n</bpmn:definitions>\n"

/-- The fresh room contents used by both `create_file` and the websocket
ensure-file-exists step: empty lock, presence, focus and connection set. -/
def newRoom (content : String) : Room :=
  { xml := content, lock := none, users := [], focus := [], sockets := [] }

/-- Outcome of the REST create handler: a `JSONResponse` with an error status,
or the `{"ok": True, "id": fid}` success body. -/
inductive CreateResult where
  | errorResp (status : Nat) (msg : String)
  | okResp (id : String)
deriving Repr, DecidableEq

/-- Drop leading whitespace characters from a character list. -/
def dropLeadingSpace : List Char → List Char
  | [] => []
  | c :: rest => if c.isWhitespace then dropLeadingSpace rest else c :: rest

/-- Python `str.strip()` (no argument): remove leading and trailing
whitespace.  Defined structurally over the character list so that it
evaluates on concrete strings. -/
def strip (s : String) : String :=
  String.mk ((dropLeadingSpace (dropLeadingSpace s.data).reverse).reverse)

/-- `payload.xml or BLANK_BPMN_XML` (main.py line 71): the payload's `xml`
field is `Optional[str] = ""`, and both `None` and `""` are falsy. -/
def contentOrDefault : Option String → String
  | none => BLANK_BPMN_XML
  | some s => if s = "" then BLANK_BPMN_XML else s

/-- `create_file` (main.py lines 62-77) over the registry `FILES`, modelled
as an association list from file id to room. -/
def create_file (files : List (String × Room)) (name : String) (xmlOpt : Option String) :
    List (String × Room) × CreateResult :=
  if strip name = "" then (files, .errorResp 400 "Name cannot be empty")
  else if (files.map Prod.fst).contains (strip name) then
    (files, .errorResp 409 "File already exists")
  else (files ++ [(strip name, newRoom (contentOrDefault xmlOpt))], .okResp (strip name))

/-- One delivery pass of `broadcast` (main.py lines 108-112): iterate over the
snapshot of the socket set; each send is wrapped in `try`/`except`, a failure
appends the socket to `dead_sockets` and the loop continues.  `fails` says
which sockets raise on `send_text`.  Returns (sockets delivery was attempted
to, in order; dead sockets). -/
def broadcastDeliver (fails : Nat → Bool) : List Nat → List Nat × List Nat
  | [] => ([], [])
  | ws :: rest =>
    let t := broadcastDeliver fails rest
    if fails ws then (ws :: t.1, ws :: t.2) else (ws :: t.1, t.2)

/-- `broadcast` (main.py lines 100-115): snapshot `list(room["sockets"])`,
attempt delivery to each, then discard every dead socket in a second pass.
Returns the updated room and the list of sockets delivery was attempted to. -/
def broadcast (room : Room) (fails : Nat → Bool) : Room × List Nat :=
  let snapshot := room.sockets
  let t := broadcastDeliver fails snapshot
  ({ room with sockets := t.2.foldl setRemove snapshot }, t.1)

/-- Outbound events (the JSON objects the server writes to sockets). -/
inductive Event where
  | stateEvt (xml : String) (lock : Option LockInfo) (users : List String)
      (focus : List (String × Option String))
  | lockEvt (lockBy : Option String)
  | lockDenied (lock : LockInfo)
  | unlockEvt
  | xmlEvt (xml : String) (sender : Option String)
deriving Repr, DecidableEq

/-- `push_state` payload (main.py lines 118-129), built from the room after
the mutation. -/
def stateOf (r : Room) : Event :=
  .stateEvt r.xml r.lock r.users r.focus

/-- Where an outbound event goes: `broadcast` to the whole room, or
`websocket.send_text` to the requesting connection only. -/
inductive Out where
  | toRoom (e : Event)
  | toSender (e : Event)
deriving Repr, DecidableEq

/-- Inbound messages after JSON parsing.  `Option` fields are `dict.get`
results (absent key gives `none`); `other` covers any unrecognised or
missing `type` discriminator.  The `lock` message carries the `time.time()`
value read when it is processed. -/
inductive Msg where
  | join (user : Option String)
  | lockMsg (now : Int)
  | unlock
  | xmlMsg (content : Option String)
  | focusMsg (element : Option String)
  | blurMsg (element : Option String)
  | other
deriving Repr, DecidableEq

/-- `data.get("user") or "anon"` (main.py line 157): both a missing field and
an empty string are falsy and fall back to `"anon"`. -/
def orAnon : Option String → String
  | none => "anon"
  | some s => if s = "" then "anon" else s

/-- `if elem:` (main.py line 195): a missing element and the empty string are
falsy. -/
def truthyStr : Option String → Option String
  | none => none
  | some s => if s = "" then none else some s

/-- Per-connection session state: the socket handle and the `username`
local variable, `None` until a `join` message is processed. -/
structure Session where
  sock : Nat
  username : Option String
deriving Repr, DecidableEq

/-- The one in-loop exception the message handlers can raise:
`data["xml"]` on an `xml` message without an `xml` field (main.py line 186). -/
inductive PyErr where
  | keyError
deriving Repr, DecidableEq

/-- One iteration of the websocket message loop (main.py lines 156-203):
dispatch on `data.get("type")` and apply the handler to the room and the
session.  Returns the updated room and session and the outbound events
produced, or the uncaught exception. -/
def handle (room : Room) (s : Session) : Msg → Except PyErr (Room × Session × List Out)
  | .join user =>
    let name := orAnon user
    let r := { room with users := setAdd room.users name }
    .ok (r, { s with username := some name }, [.toRoom (stateOf r)])
  | .lockMsg now =>
    let cleared : Room :=
      match room.lock with
      | some l => if now - l.since > LOCK_TIMEOUT then { room with lock := none } else room
      | none => room
    match cleared.lock with
    | none =>
      let r := { cleared with lock := some ⟨s.username, now⟩ }
      .ok (r, s, [.toRoom (.lockEvt s.username), .toRoom (stateOf r)])
    | some l => .ok (cleared, s, [.toSender (.lockDenied l)])
  | .unlock =>
    match room.lock with
    | some l =>
      if l.lockBy = s.username then
        let r := { room with lock := none }
        .ok (r, s, [.toRoom .unlockEvt, .toRoom (stateOf r)])
      else .ok (room, s, [])
    | none => .ok (room, s, [])
  | .xmlMsg content =>
    match content with
    | none => .error .keyError
    | some c =>
      let r := { room with xml := c }
      .ok (r, s, [.toRoom (.xmlEvt c s.username)])
  | .focusMsg element =>
    match truthyStr element with
    | some e =>
      let r := { room with focus := focusSet room.focus e s.username }
      .ok (r, s, [.toRoom (stateOf r)])
    | none => .ok (room, s, [])
  | .blurMsg element =>
    match element with
    | some e =>
      if focusHasKey room.focus e then
        let r := { room with focus := focusDel room.focus e }
        .ok (r, s, [.toRoom (stateOf r)])
      else .ok (room, s, [])
    | none => .ok (room, s, [])
  | .other => .ok (room, s, [])

/-- The `while True` receive loop: process messages in arrival order until
the list is exhausted (the transport reports disconnection on the next
`receive_text`) or a handler raises.  The `Bool` records whether the loop
exited by an exception other than `WebSocketDisconnect`; either way control
falls through to the `finally` block. -/
def runMsgs (room : Room) (s : Session) : List Msg → Room × Session × List Out × Bool
  | [] => (room, s, [], false)
  | m :: rest =>
    match handle room s m with
    | .ok (r, s2, outs) =>
      let t := runMsgs r s2 rest
      (t.1, t.2.1, outs ++ t.2.2.1, t.2.2.2)
    | .error _ => (room, s, [], true)

/-- The `finally` block's room mutations (main.py lines 208-213): discard
this socket, remove the session's username from presence when present, and
clear the lock when its holder equals the session's username. -/
def cleanupRoom (room : Room) (s : Session) : Room :=
  let r1 := { room with sockets := setRemove room.sockets s.sock }
  let r2 :=
    match s.username with
    | some u => if u ∈ r1.users then { r1 with users := setRemove r1.users u } else r1
    | none => r1
  match r2.lock with
  | some l => if l.lockBy = s.username then { r2 with lock := none } else r2
  | none => r2

/-- The full `finally` block (main.py lines 207-215): mutate the room, then
`push_state` broadcasts one final state snapshot. -/
def cleanup (room : Room) (s : Session) : Room × List Out :=
  let r := cleanupRoom room s
  (r, [.toRoom (stateOf r)])

/-- `websocket_endpoint` (main.py lines 132-215) for one connection to one
room: add the socket to the room's connection set, run the receive loop with
`username = None`, and on any exit run the cleanup phase exactly once.
Returns the final room and all outbound events in order. -/
def websocket_endpoint (room : Room) (sock : Nat) (msgs : List Msg) : Room × List Out :=
  let room1 := { room with sockets := setAdd room.sockets sock }
  let t := runMsgs room1 ⟨sock, none⟩ msgs
  let c := cleanup t.1 t.2.1
  (c.1, t.2.2.1 ++ c.2)

/-- The receive-loop part of `websocket_endpoint`, factored out so theorems
can refer to the room, session and outputs at the moment the loop exits. -/
def loopResult (room : Room) (sock : Nat) (msgs : List Msg) :
    Room × Session × List Out × Bool :=
  runMsgs { room with sockets := setAdd room.sockets sock } ⟨sock, none⟩ msgs

/-- Recogniser for a full-state broadcast among the outbound events. -/
def isStateOut : Out → Bool
  | .toRoom (.stateEvt _ _ _ _) => true
  | _ => false

/-- A concrete room whose lock is held (not expired) by "bob". -/
def roomLockedByBob : Room :=
  { xml := "OLD", lock := some ⟨some "bob", 50⟩, users := ["alice", "bob"],
    focus := [], sockets := [1, 2] }

/-- A concrete room with three live sockets, for the fanout witness. -/
def roomSock123 : Room :=
  { xml := "x", lock := none, users := [], focus := [], sockets := [1, 2, 3] }

/-- A concrete room whose lock was granted to "bob" at time 0, so it is
expired for any request later than time 600. -/
def roomExpired : Room :=
  { xml := "d", lock := some ⟨some "bob", 0⟩, users := ["bob"], focus := [],
    sockets := [1] }

/-- A concrete room where "alice" focuses element "a". -/
def roomFocusA : Room :=
  { xml := "d", lock := none, users := ["alice"], focus := [("a", some "alice")],
    sockets := [1] }

theorem mem_setAdd_self {α : Type} [DecidableEq α] (l : List α) (x : α) :
    x ∈ setAdd l x := by
  unfold setAdd
  split
  · assumption
  · simp

theorem mem_setAdd_of_mem {α : Type} [DecidableEq α] {l : List α} {y : α} (x : α)
    (h : y ∈ l) : y ∈ setAdd l x := by
  unfold setAdd
  split
  · exact h
  · simp [h]

theorem mem_setRemove_iff {α : Type} [DecidableEq α] {l : List α} {x y : α} :
    y ∈ setRemove l x ↔ y ∈ l ∧ y ≠ x := by
  simp [setRemove]

theorem mem_foldl_setRemove {α : Type} [DecidableEq α] (dead : List α) (l : List α)
    (y : α) : y ∈ dead.foldl setRemove l ↔ y ∈ l ∧ y ∉ dead := by
  induction dead generalizing l with
  | nil => simp
  | cons d rest ih =>
    simp only [List.foldl_cons, ih, mem_setRemove_iff, List.mem_cons]
    tauto

theorem broadcastDeliver_eq (fails : Nat → Bool) (l : List Nat) :
    broadcastDeliver fails l = (l, l.filter fails) := by
  induction l with
  | nil => rfl
  | cons ws rest ih =>
    simp only [broadcastDeliver, ih]
    cases h : fails ws <;> simp [h, List.filter_cons]

/-- Claim C7: `broadcast` snapshots the connection set, attempts delivery to
every connection in the snapshot (a failure is caught per connection, never
aborts the pass and never surfaces — the function is total and its attempted
list is always the whole snapshot, whatever the failure set), and the second
pass removes exactly the failed connections from the room's connection set. -/
theorem broadcast_isolates_failures (room : Room) (fails : Nat → Bool) :
    (broadcast room fails).2 = room.sockets ∧
    (∀ ws, ws ∈ (broadcast room fails).1.sockets ↔
      ws ∈ room.sockets ∧ fails ws = false) := by
  simp only [broadcast, broadcastDeliver_eq]
  refine ⟨trivial, fun ws => ?_⟩
  simp only [mem_foldl_setRemove, List.mem_filter]
  constructor
  · rintro ⟨hmem, hdead⟩
    refine ⟨hmem, ?_⟩
    cases h : fails ws
    · rfl
    · exact absurd ⟨hmem, h⟩ hdead
  · rintro ⟨hmem, hf⟩
    exact ⟨hmem, fun hd => by simp [hf] at hd⟩

/-- Witness for C7 at a concrete room where socket 2 fails: delivery is
attempted to all of 1, 2, 3 and only socket 2 is pruned. -/
theorem broadcast_isolates_failures_witness :
    (broadcast roomSock123 (fun n => n == 2)).2 = [1, 2, 3] ∧
    2 ∉ (broadcast roomSock123 (fun n => n == 2)).1.sockets ∧
    1 ∈ (broadcast roomSock123 (fun n => n == 2)).1.sockets := by
  have h := broadcast_isolates_failures roomSock123 (fun n => n == 2)
  refine ⟨h.1, fun hm => ?_, (h.2 1).mpr (by decide)⟩
  have h2 := (h.2 2).mp hm
  simp [roomSock123] at h2

/-- Claim C8: the explicit create handler rejects an id that is empty after
trimming with status 400, rejects an already-known trimmed id with status
409 — leaving the registry unchanged in both cases — and otherwise appends a
room with empty lock, presence, focus and connection set whose content is
the supplied payload, or the blank template when the payload is empty or
absent.  (The source checks emptiness before existence, so an empty id is
always answered 400; empty ids can never enter the registry.) -/
theorem create_file_cases (files : List (String × Room)) (name : String)
    (xmlOpt : Option String) :
    (strip name = "" →
      create_file files name xmlOpt = (files, .errorResp 400 "Name cannot be empty")) ∧
    (strip name ≠ "" → (files.map Prod.fst).contains (strip name) = true →
      create_file files name xmlOpt = (files, .errorResp 409 "File already exists")) ∧
    (strip name ≠ "" → (files.map Prod.fst).contains (strip name) = false →
      create_file files name xmlOpt =
        (files ++ [(strip name,
          { xml := contentOrDefault xmlOpt, lock := none, users := [],
            focus := [], sockets := [] })], .okResp (strip name))) ∧
    (∀ s, s ≠ "" → contentOrDefault (some s) = s) ∧
    contentOrDefault (some "") = BLANK_BPMN_XML ∧
    contentOrDefault none = BLANK_BPMN_XML := by
  refine ⟨fun h => ?_, fun h hc => ?_, fun h hc => ?_, fun s hs => ?_, rfl, rfl⟩
  · unfold create_file
    rw [if_pos h]
  · unfold create_file
    rw [if_neg h, if_pos hc]
  · have hne : ¬((files.map Prod.fst).contains (strip name) = true) := by
      intro hcc
      rw [hc] at hcc
      exact Bool.false_ne_true hcc
    unfold create_file
    rw [if_neg h, if_neg hne]
    rfl
  · simp [contentOrDefault, hs]

/-- Witness for C8, following the spec's scenario 1: creating `doc1` with
empty content succeeds with the blank template, re-creating it answers 409
with the registry unchanged, and a whitespace-only name answers 400. -/
theorem create_file_cases_witness :
    create_file [] "doc1" (some "") =
      ([("doc1", newRoom BLANK_BPMN_XML)], .okResp "doc1") ∧
    create_file [("doc1", newRoom BLANK_BPMN_XML)] "doc1" (some "") =
      ([("doc1", newRoom BLANK_BPMN_XML)], .errorResp 409 "File already exists") ∧
    create_file [] "  " none = ([], .errorResp 400 "Name cannot be empty") := by
  have ht : strip "doc1" = "doc1" := by decide
  refine ⟨?_, ?_, ?_⟩
  · have h := (create_file_cases [] "doc1" (some "")).2.2.1 (by decide) (by decide)
    rw [ht] at h
    exact h
  · exact (create_file_cases [("doc1", newRoom BLANK_BPMN_XML)] "doc1" (some "")).2.1
      (by decide) (by decide)
  · exact (create_file_cases [] "  " none).1 (by decide)

/-- Claim C1: on a `lock` message, a lock older than the 600-second TTL is
treated as expired and cleared first; if no lock then remains the request is
granted — the lock becomes `{holder: requesting session's username, since:
now}`, a `lock` event and a state snapshot are broadcast — so a request after
`since + TTL` succeeds regardless of the previous holder; otherwise the
request is denied with a `lock-denied` reply to the requester only, carrying
the still-current lock with holder and timestamp unchanged. -/
theorem lock_arbitration (room : Room) (s : Session) (now : Int) :
    (room.lock = none →
      handle room s (.lockMsg now) =
        .ok ({ room with lock := some ⟨s.username, now⟩ }, s,
          [.toRoom (.lockEvt s.username),
            .toRoom (stateOf { room with lock := some ⟨s.username, now⟩ })])) ∧
    (∀ l, room.lock = some l → now - l.since > LOCK_TIMEOUT →
      handle room s (.lockMsg now) =
        .ok ({ room with lock := some ⟨s.username, now⟩ }, s,
          [.toRoom (.lockEvt s.username),
            .toRoom (stateOf { room with lock := some ⟨s.username, now⟩ })])) ∧
    (∀ l, room.lock = some l → ¬(now - l.since > LOCK_TIMEOUT) →
      handle room s (.lockMsg now) = .ok (room, s, [.toSender (.lockDenied l)])) := by
  obtain ⟨x, lk, us, fo, so⟩ := room
  cases lk with
  | none =>
    refine ⟨fun _ => ?_, fun l h hexp => by simp at h, fun l h hnexp => by simp at h⟩
    simp [handle, stateOf]
  | some l0 =>
    refine ⟨fun h => by simp at h, fun l h hexp => ?_, fun l h hnexp => ?_⟩
    · injection h with h
      subst h
      simp [handle, stateOf, hexp]
    · injection h with h
      subst h
      simp [handle, stateOf, hnexp]

/-- Witness for C1: bob's lock from time 0 is expired at time 601, so
alice's request is granted and the lock becomes hers with timestamp 601. -/
theorem lock_arbitration_witness :
    handle roomExpired ⟨2, some "alice"⟩ (.lockMsg 601) =
      .ok ({ roomExpired with lock := some ⟨some "alice", 601⟩ }, ⟨2, some "alice"⟩,
        [.toRoom (.lockEvt (some "alice")),
          .toRoom (stateOf { roomExpired with lock := some ⟨some "alice", 601⟩ })]) :=
  (lock_arbitration roomExpired ⟨2, some "alice"⟩ 601).2.1 ⟨some "bob", 0⟩ rfl (by decide)

/-- Claim C6: an `unlock` message clears the lock — broadcasting an `unlock`
event and a state snapshot — exactly when a lock is present and its holder
equals the requesting session's username; otherwise (different holder, or no
lock) nothing changes and nothing is sent. -/
theorem unlock_only_by_holder (room : Room) (s : Session) :
    (∀ l, room.lock = some l → l.lockBy = s.username →
      handle room s .unlock =
        .ok ({ room with lock := none }, s,
          [.toRoom .unlockEvt, .toRoom (stateOf { room with lock := none })])) ∧
    (∀ l, room.lock = some l → l.lockBy ≠ s.username →
      handle room s .unlock = .ok (room, s, [])) ∧
    (room.lock = none → handle room s .unlock = .ok (room, s, [])) := by
  obtain ⟨x, lk, us, fo, so⟩ := room
  cases lk with
  | none =>
    refine ⟨fun l h => by simp at h, fun l h => by simp at h, fun _ => by simp [handle]⟩
  | some l0 =>
    refine ⟨fun l h heq => ?_, fun l h hne => ?_, fun h => by simp at h⟩
    · injection h with h
      subst h
      simp [handle, stateOf, heq]
    · injection h with h
      subst h
      simp [handle, hne]

/-- Witness for C6: bob (the holder) unlocking clears bob's lock and
broadcasts; alice (not the holder) unlocking is a silent no-op. -/
theorem unlock_only_by_holder_witness :
    handle roomLockedByBob ⟨2, some "bob"⟩ .unlock =
      .ok ({ roomLockedByBob with lock := none }, ⟨2, some "bob"⟩,
        [.toRoom .unlockEvt, .toRoom (stateOf { roomLockedByBob with lock := none })]) ∧
    handle roomLockedByBob ⟨1, some "alice"⟩ .unlock =
      .ok (roomLockedByBob, ⟨1, some "alice"⟩, []) := by
  constructor
  · exact (unlock_only_by_holder roomLockedByBob ⟨2, some "bob"⟩).1 ⟨some "bob", 50⟩ rfl rfl
  · exact (unlock_only_by_holder roomLockedByBob ⟨1, some "alice"⟩).2.1 ⟨some "bob", 50⟩
      rfl (by decide)

/-- Claim C9: a `blur` message whose element is not a key of the focus map
(including a missing element field) leaves the room unchanged, broadcasts
nothing and raises nothing; repeating the same `blur` is therefore
idempotent — the second application returns the identical unchanged room. -/
theorem blur_absent_noop (room : Room) (s : Session) :
    (∀ k, focusHasKey room.focus k = false →
      handle room s (.blurMsg (some k)) = .ok (room, s, []) ∧
      (handle room s (.blurMsg (some k))).bind
        (fun t => handle t.1 t.2.1 (.blurMsg (some k))) = .ok (room, s, [])) ∧
    handle room s (.blurMsg none) = .ok (room, s, []) := by
  constructor
  · intro k hk
    have h1 : handle room s (.blurMsg (some k)) = .ok (room, s, []) := by
      simp [handle, hk]
    refine ⟨h1, ?_⟩
    rw [h1]
    exact h1
  · simp [handle]

/-- Witness for C9: in a room whose focus map holds only element "a",
blurring "b" is a no-op. -/
theorem blur_absent_noop_witness :
    handle roomFocusA ⟨1, some "alice"⟩ (.blurMsg (some "b")) =
      .ok (roomFocusA, ⟨1, some "alice"⟩, []) :=
  ((blur_absent_noop roomFocusA ⟨1, some "alice"⟩).1 "b" (by decide)).1

/-- Counterexample to claim C3 as stated: with bob holding a non-expired
lock, alice's `xml` message still replaces the content (no lock gating) and
the only broadcast is the `xml` event — no full state snapshot is produced,
unlike the claimed canonical policy. -/
theorem xml_not_gated_no_snapshot :
    handle roomLockedByBob ⟨1, some "alice"⟩ (.xmlMsg (some "NEW")) =
      .ok ({ roomLockedByBob with xml := "NEW" }, ⟨1, some "alice"⟩,
        [Out.toRoom (.xmlEvt "NEW" (some "alice"))]) ∧
    List.any [Out.toRoom (Event.xmlEvt "NEW" (some "alice"))] isStateOut = false :=
  ⟨rfl, rfl⟩

/-- Claim C3 amended: an `xml` message carrying content replaces the room
content and broadcasts an `xml` event with the new content and the sender's
username; the source performs no lock check and broadcasts no state
snapshot (the permissive variant, per its own comment). -/
theorem xml_update_permissive (room : Room) (s : Session) (c : String) :
    handle room s (.xmlMsg (some c)) =
      .ok ({ room with xml := c }, s, [.toRoom (.xmlEvt c s.username)]) := rfl

/-- Counterexample to claim C4 as stated: a freshly created room reached by
one connection (socket 1) whose client sends `lock` before `join` ends up
with a lock whose holder is the unset pre-join value `none`. -/
theorem pre_join_lock_holder_none :
    (runMsgs { newRoom BLANK_BPMN_XML with sockets := [1] } ⟨1, none⟩
      [Msg.lockMsg 100]).1.lock = some ⟨none, 100⟩ := rfl

/-- Claim C4 amended: whenever a `lock` message is processed, either the
lock is left exactly as it was, or it becomes the requesting session's
username paired with the request time — the username at grant time, which is
the joined username after a `join` but the unset `none` value before one. -/
theorem lock_holder_at_grant (room : Room) (s : Session) (now : Int)
    (r : Room) (s2 : Session) (outs : List Out)
    (h : handle room s (.lockMsg now) = .ok (r, s2, outs)) :
    r.lock = room.lock ∨ r.lock = some ⟨s.username, now⟩ := by
  obtain ⟨x, lk, us, fo, so⟩ := room
  cases lk with
  | none =>
    simp only [handle, Except.ok.injEq, Prod.mk.injEq] at h
    right
    rw [← h.1]
  | some l0 =>
    by_cases hexp : now - l0.since > LOCK_TIMEOUT
    · simp only [handle, if_pos hexp, Except.ok.injEq, Prod.mk.injEq] at h
      right
      rw [← h.1]
    · simp only [handle, if_neg hexp, Except.ok.injEq, Prod.mk.injEq] at h
      left
      rw [← h.1]

/-- Witness for the amended C4: alice's granted lock records her username
and the request time. -/
theorem lock_holder_at_grant_witness :
    ({ newRoom "d" with lock := some ⟨some "alice", 5⟩ } : Room).lock = (newRoom "d").lock ∨
    ({ newRoom "d" with lock := some ⟨some "alice", 5⟩ } : Room).lock =
      some ⟨some "alice", 5⟩ :=
  lock_holder_at_grant (newRoom "d") ⟨1, some "alice"⟩ 5
    { newRoom "d" with lock := some ⟨some "alice", 5⟩ } ⟨1, some "alice"⟩
    [.toRoom (.lockEvt (some "alice")),
      .toRoom (stateOf { newRoom "d" with lock := some ⟨some "alice", 5⟩ })] rfl

/-- Claim C5 (code-level behavior at the failing input): an `xml` message
without content raises `KeyError` — the loop exits and the connection is
terminated after cleanup, whose state snapshot is the only output; no error
reply is ever sent to the sender.  A `focus` message without an element is a
silent no-op, also with no error reply.  The claimed catch-and-answer
behavior does not exist in the source. -/
theorem malformed_message_never_answered (room : Room) (s : Session) (sock : Nat) :
    handle room s (.xmlMsg none) = .error .keyError ∧
    (websocket_endpoint room sock [Msg.xmlMsg none]).2 =
      [Out.toRoom (stateOf (websocket_endpoint room sock [Msg.xmlMsg none]).1)] ∧
    handle room s (.focusMsg none) = .ok (room, s, []) :=
  ⟨rfl, rfl, rfl⟩

/-- `handle` never changes the session's socket handle: the session returned
by any successful handler is the input session with at most the username
replaced. -/
def sockOf (e : Except PyErr (Room × Session × List Out)) (d : Nat) : Nat :=
  match e with
  | .ok t => t.2.1.sock
  | .error _ => d

theorem handle_sock_all (room : Room) (s : Session) (m : Msg) :
    sockOf (handle room s m) s.sock = s.sock := by
  cases m <;> simp only [handle] <;> (repeat' split) <;> rfl

theorem runMsgs_sock (msgs : List Msg) : ∀ (room : Room) (s : Session),
    (runMsgs room s msgs).2.1.sock = s.sock := by
  induction msgs with
  | nil => intro room s; rfl
  | cons m rest ih =>
    intro room s
    have h2 := handle_sock_all room s m
    simp only [runMsgs]
    cases hh : handle room s m with
    | ok t =>
      rw [hh] at h2
      simp only [sockOf] at h2
      simpa using (ih t.1 t.2.1).trans h2
    | error e => rfl

theorem cleanupRoom_sockets (r : Room) (s : Session) :
    (cleanupRoom r s).sockets = setRemove r.sockets s.sock := by
  obtain ⟨x, lk, us, fo, so⟩ := r
  obtain ⟨sk, un⟩ := s
  cases un <;> cases lk <;> simp only [cleanupRoom] <;> (repeat' split) <;> rfl

theorem cleanupRoom_users (r : Room) (s : Session) :
    (cleanupRoom r s).users =
      match s.username with
      | some u => if u ∈ r.users then setRemove r.users u else r.users
      | none => r.users := by
  obtain ⟨x, lk, us, fo, so⟩ := r
  obtain ⟨sk, un⟩ := s
  cases un <;> cases lk <;> simp only [cleanupRoom] <;> (repeat' split) <;> rfl

theorem cleanupRoom_username_removed (r : Room) (s : Session) (u : String)
    (h : s.username = some u) : u ∉ (cleanupRoom r s).users := by
  rw [cleanupRoom_users, h]
  show u ∉ if u ∈ r.users then setRemove r.users u else r.users
  by_cases hm : u ∈ r.users
  · rw [if_pos hm]
    intro hc
    exact (mem_setRemove_iff.mp hc).2 rfl
  · rw [if_neg hm]
    exact hm

theorem cleanupRoom_lock_cleared (r : Room) (s : Session) (l : LockInfo)
    (hl : r.lock = some l) (hb : l.lockBy = s.username) :
    (cleanupRoom r s).lock = none := by
  obtain ⟨x, lk, us, fo, so⟩ := r
  obtain ⟨sk, un⟩ := s
  simp only at hl hb
  subst hl
  cases un with
  | none => simp [cleanupRoom, hb]
  | some u =>
    by_cases hm : u ∈ us
    · simp [cleanupRoom, hm, hb]
    · simp [cleanupRoom, hm, hb]

/-- Claim C2: for any connection session and any message sequence, however
the receive loop exits (messages exhausted by a disconnect, or a handler
raising), the final result is the loop's result with the cleanup phase
applied exactly once: this socket is removed from the room's connection set,
the session's username (when set) is removed from presence, the lock is
cleared when its holder equals the session's username, and the output stream
ends with exactly one final full-state broadcast of the cleaned-up room. -/
theorem cleanup_on_every_exit (room : Room) (sock : Nat) (msgs : List Msg) :
    (websocket_endpoint room sock msgs).1 =
      cleanupRoom (loopResult room sock msgs).1 (loopResult room sock msgs).2.1 ∧
    (websocket_endpoint room sock msgs).2 =
      (loopResult room sock msgs).2.2.1 ++
        [Out.toRoom (stateOf (websocket_endpoint room sock msgs).1)] ∧
    sock ∉ (websocket_endpoint room sock msgs).1.sockets ∧
    (∀ u, (loopResult room sock msgs).2.1.username = some u →
      u ∉ (websocket_endpoint room sock msgs).1.users) ∧
    (∀ l, (loopResult room sock msgs).1.lock = some l →
      l.lockBy = (loopResult room sock msgs).2.1.username →
      (websocket_endpoint room sock msgs).1.lock = none) := by
  refine ⟨rfl, rfl, ?_, ?_, ?_⟩
  · show sock ∉
      (cleanupRoom (loopResult room sock msgs).1 (loopResult room sock msgs).2.1).sockets
    have hs : (loopResult room sock msgs).2.1.sock = sock :=
      runMsgs_sock msgs { room with sockets := setAdd room.sockets sock } ⟨sock, none⟩
    rw [cleanupRoom_sockets, hs]
    simp [mem_setRemove_iff]
  · intro u hu
    show u ∉
      (cleanupRoom (loopResult room sock msgs).1 (loopResult room sock msgs).2.1).users
    exact cleanupRoom_username_removed _ _ u hu
  · intro l hl hb
    show (cleanupRoom (loopResult room sock msgs).1 (loopResult room sock msgs).2.1).lock
      = none
    exact cleanupRoom_lock_cleared _ _ l hl hb

/-- Witness for C2: alice joins, acquires the lock, then disconnects — the
final room has no trace of her connection, username or lock. -/
theorem cleanup_on_every_exit_witness :
    "alice" ∉
      (websocket_endpoint (newRoom "d") 1 [Msg.join (some "alice"), Msg.lockMsg 5]).1.users ∧
    1 ∉
      (websocket_endpoint (newRoom "d") 1 [Msg.join (some "alice"), Msg.lockMsg 5]).1.sockets ∧
    (websocket_endpoint (newRoom "d") 1 [Msg.join (some "alice"), Msg.lockMsg 5]).1.lock
      = none := by
  have h := cleanup_on_every_exit (newRoom "d") 1 [Msg.join (some "alice"), Msg.lockMsg 5]
  exact ⟨h.2.2.2.1 "alice" (by decide), h.2.2.1,
    h.2.2.2.2 ⟨some "alice", 5⟩ (by decide) (by decide)⟩

/-- Claim C10: one connection joining twice with different (non-empty)
usernames leaves both in presence during the session, but disconnect cleanup
removes only the most recently joined one: the earlier username stays in
presence even though, when the room had no other connection, no live
connection remains at all. -/
theorem double_join_presence_leak (room : Room) (sock : Nat) (u1 u2 : String)
    (h1 : u1 ≠ "") (h2 : u2 ≠ "") (hne : u1 ≠ u2) :
    u1 ∈ (websocket_endpoint room sock [Msg.join (some u1), Msg.join (some u2)]).1.users ∧
    u2 ∉ (websocket_endpoint room sock [Msg.join (some u1), Msg.join (some u2)]).1.users ∧
    (room.sockets = [] →
      (websocket_endpoint room sock [Msg.join (some u1), Msg.join (some u2)]).1.sockets
        = []) := by
  have husers : (loopResult room sock [Msg.join (some u1), Msg.join (some u2)]).1.users =
      setAdd (setAdd room.users u1) u2 := by
    simp [loopResult, runMsgs, handle, orAnon, h1, h2]
  have hsess : (loopResult room sock [Msg.join (some u1), Msg.join (some u2)]).2.1 =
      ⟨sock, some u2⟩ := by
    simp [loopResult, runMsgs, handle, orAnon, h1, h2]
  have hsoc : (loopResult room sock [Msg.join (some u1), Msg.join (some u2)]).1.sockets =
      setAdd room.sockets sock := by
    simp [loopResult, runMsgs, handle, orAnon, h1, h2]
  have hfin : (websocket_endpoint room sock [Msg.join (some u1), Msg.join (some u2)]).1.users
      = setRemove (setAdd (setAdd room.users u1) u2) u2 := by
    show (cleanupRoom (loopResult room sock [Msg.join (some u1), Msg.join (some u2)]).1
      (loopResult room sock [Msg.join (some u1), Msg.join (some u2)]).2.1).users
      = setRemove (setAdd (setAdd room.users u1) u2) u2
    rw [cleanupRoom_users, hsess, husers]
    simp only [if_pos (mem_setAdd_self _ u2)]
  refine ⟨?_, ?_, ?_⟩
  · rw [hfin]
    exact mem_setRemove_iff.mpr ⟨mem_setAdd_of_mem u2 (mem_setAdd_self room.users u1), hne⟩
  · rw [hfin]
    intro hc
    exact (mem_setRemove_iff.mp hc).2 rfl
  · intro hempty
    show (cleanupRoom (loopResult room sock [Msg.join (some u1), Msg.join (some u2)]).1
      (loopResult room sock [Msg.join (some u1), Msg.join (some u2)]).2.1).sockets = []
    rw [cleanupRoom_sockets, hsess, hsoc, hempty]
    simp [setAdd, setRemove]

/-- Witness for C10: alice joins, re-joins as bob, disconnects; "alice"
remains in presence though the room has no connection left, "bob" is gone. -/
theorem double_join_presence_leak_witness :
    "alice" ∈
      (websocket_endpoint (newRoom "d") 1 [Msg.join (some "alice"), Msg.join (some "bob")]).1.users ∧
    "bob" ∉
      (websocket_endpoint (newRoom "d") 1 [Msg.join (some "alice"), Msg.join (some "bob")]).1.users ∧
    (websocket_endpoint (newRoom "d") 1 [Msg.join (some "alice"), Msg.join (some "bob")]).1.sockets
      = [] := by
  have h := double_join_presence_leak (newRoom "d") 1 "alice" "bob"
    (by decide) (by decide) (by decide)
  exact ⟨h.1, h.2.1, h.2.2 rfl⟩
